import Mathlib

/-!
Verification of the godwoken challenge/revert engine.

This file shallowly embeds the challenge-witness and revert-context builders of
`crates/chain/src/challenge.rs` together with the overlay store of
`crates/chain/src/state_impl/overlay.rs`, and proves (or refutes) the frozen
claims about them.

Modelling conventions:
* 32-byte hashes (`H256`) are modelled as `Nat`; the zero value is the reserved
  zero hash.  Cryptographic hashes are modelled by injective encodings built
  from `Nat.pair` (collision-freeness replaces "collision resistant").
* Machine integers (`u32`, `u64`) are `Nat`; where the source performs an
  unchecked subtraction, the debug-build overflow check is modelled explicitly
  as a panic outcome.
* Rust `Result`/`?` is `Except`; an `assert_eq!` or an arithmetic-overflow
  abort is a distinct `panicked` outcome (a Rust panic is not a returned
  error value).
* The sparse Merkle tree, the state database and the compiled-proof semantics
  live in crates that are not part of the embedded sources; they are modelled
  from the specification (each such definition is marked
  `Modelled from the spec:`).
-/

namespace Godwoken

/-- 32-byte hash value, modelled as a natural number; `0` is the zero hash. -/
abbrev H256 := Nat

/-- Modelled from the spec: stand-in for a 32-byte cryptographic hash with a
domain tag; injective by `Nat.pair` injectivity, and never the reserved zero
value. -/
def hashTag (tag x : Nat) : H256 := Nat.pair tag x + 1

/-- Modelled from the spec (§4.1, `gw_common::merkle_utils`, not under `src/`):
`calculate_state_checkpoint(root, account_count) = H(root ‖ count_le32)`. -/
def calculate_state_checkpoint (root : H256) (accountCount : Nat) : H256 :=
  hashTag 0 (Nat.pair root accountCount)

/-- Modelled from the spec: blake2b hash of the executor's return data. -/
def blake2bHash (data : Nat) : H256 := hashTag 1 data

/-- Modelled from the spec (`gw_common::state`, not under `src/`): the account
SMT key holding the script hash of an account id. -/
def scriptHashKey (accountId : Nat) : H256 := hashTag 2 accountId

/-- Modelled from the spec (`gw_common::state`, not under `src/`): the account
SMT key holding the nonce of an account id. -/
def nonceKey (accountId : Nat) : H256 := hashTag 3 accountId

/-- First-match association lookup (Rust `HashMap::get` / store lookups). -/
def assocFind {α β : Type} [DecidableEq α] : List (α × β) → α → Option β
  | [], _ => none
  | p :: rest, k => if p.1 = k then some p.2 else assocFind rest k

/-- Insert-or-replace in an association list (`HashMap::insert`). -/
def kvAssocUpsert {α β : Type} [DecidableEq α] : List (α × β) → α → β → List (α × β)
  | [], k, v => [(k, v)]
  | p :: rest, k, v =>
    if p.1 = k then (k, v) :: rest else p :: kvAssocUpsert rest k v

/-- Value of a key in an SMT leaf list; missing keys read as the zero hash. -/
def kvGet : List (H256 × H256) → H256 → H256
  | [], _ => 0
  | p :: rest, k => if p.1 = k then p.2 else kvGet rest k

/-- Insert-or-replace a leaf in an SMT leaf list. -/
def kvUpsert : List (H256 × H256) → H256 → H256 → List (H256 × H256)
  | [], k, v => [(k, v)]
  | p :: rest, k, v => if p.1 = k then (k, v) :: rest else p :: kvUpsert rest k v

/-- Insertion into a sorted list of keys. -/
def insertSorted (x : Nat) : List Nat → List Nat
  | [] => [x]
  | y :: ys => if x ≤ y then x :: y :: ys else y :: insertSorted x ys

/-- Sort a list of keys ascending (lexicographic byte order = numeric order). -/
def sortNat (l : List Nat) : List Nat := l.foldr insertSorted []

/-- Injective encoding of a list of leaves as a natural number. -/
def encodePairs : List (H256 × H256) → Nat
  | [] => 0
  | p :: rest => Nat.pair (Nat.pair p.1 p.2) (encodePairs rest) + 1

/-- Injective encoding of a list of naturals. -/
def encodeNatList : List Nat → Nat
  | [] => 0
  | x :: rest => Nat.pair x (encodeNatList rest) + 1

/-- Canonical form of an SMT leaf list: the key-value mapping it denotes, with
zero values (= absent leaves) dropped and keys sorted. -/
def canonKv (l : List (H256 × H256)) : List (H256 × H256) :=
  (sortNat (l.map Prod.fst).dedup).filterMap fun k =>
    let v := kvGet l k
    if v = 0 then none else some (k, v)

/-- Modelled from the spec (§3, §4.2; the SMT crate is not under `src/`):
a sparse Merkle tree carried by its leaf list.  The root is a pure function of
the key-value mapping (via `canonKv`) and the empty tree has root zero. -/
structure SMT where
  kv : List (H256 × H256)
deriving DecidableEq

/-- Modelled from the spec: deterministic SMT root; pure in the mapping,
zero for the empty mapping. -/
def SMT.root (s : SMT) : H256 :=
  match canonKv s.kv with
  | [] => 0
  | l => hashTag 4 (encodePairs l)

/-- `update(key, value)`; setting to zero is equivalent to removal (zero values
are dropped by `canonKv`). -/
def SMT.update (s : SMT) (k v : H256) : SMT := ⟨kvUpsert s.kv k v⟩

/-- Modelled from the spec: an uncompiled multi-leaf proof.  It carries the
leaves of the tree that are not bound by the proof keys, which is exactly the
information a real SMT proof commits to via sibling hashes. -/
structure MerkleProofRaw where
  restKv : List (H256 × H256)
  keys : List H256
deriving DecidableEq

/-- `merkle_proof(keys)`: keys need not be unique nor sorted. -/
def SMT.merkleProof (s : SMT) (keys : List H256) : MerkleProofRaw :=
  { restKv := s.kv.filter fun p => !(keys.contains p.1), keys := keys }

/-- Modelled from the spec (§3 KVProof): a compiled multi-leaf Merkle proof.
`compiledLeaves` records the leaves the proof was compiled against (they
contribute to the emitted proof bytes). -/
structure CompiledMerkleProof where
  restKv : List (H256 × H256)
  keys : List H256
  compiledLeaves : List (H256 × H256)
deriving DecidableEq

/-- `compile(leaves)` on a raw proof. -/
def MerkleProofRaw.compile (p : MerkleProofRaw) (leaves : List (H256 × H256)) :
    CompiledMerkleProof :=
  { restKv := p.restKv, keys := p.keys, compiledLeaves := leaves }

/-- Modelled from the spec: `CompiledProof.compute_root(leaves)` recomputes the
root of the tree whose bound keys take the given leaf values and whose other
leaves are the ones the proof committed to. -/
def CompiledMerkleProof.computeRoot (p : CompiledMerkleProof)
    (leaves : List (H256 × H256)) : H256 :=
  SMT.root ⟨p.restKv ++ leaves⟩

/-- Sub-block position of a state checkpoint (`gw_store::state_db::SubState`). -/
inductive SubState where
  | genesis
  | prevTxs
  | tx (i : Nat)
  | block
deriving DecidableEq

/-- A state checkpoint coordinate (`gw_store::state_db::CheckPoint`). -/
structure CheckPoint where
  number : Nat
  sub : SubState
deriving DecidableEq

/-- `u32::checked_sub`. -/
def checkedSub (a b : Nat) : Option Nat := if b ≤ a then some (a - b) else none

/-- The fields of `RawL2Block` that the challenge/revert engine reads. -/
structure RawL2Block where
  number : Nat
  timestamp : Nat
  blockProducerId : Nat
  /-- `submit_withdrawals().withdrawal_count()`. -/
  withdrawalCount : Nat
  /-- `state_checkpoint_list()`. -/
  stateCheckpointList : List H256
  /-- `submit_transactions().prev_state_checkpoint()`. -/
  prevStateCheckpoint : H256
deriving DecidableEq

/-- Modelled from the spec: the (molecule blake2b) content hash of a raw block. -/
def RawL2Block.hash (b : RawL2Block) : H256 :=
  hashTag 6 (Nat.pair b.number (Nat.pair b.timestamp
    (Nat.pair b.prevStateCheckpoint (encodeNatList b.stateCheckpointList))))

/-- Modelled from the spec: the block's key in the canonical block SMT, a
deterministic function of the block number. -/
def RawL2Block.smtKey (b : RawL2Block) : H256 := hashTag 7 b.number

/-- The fields of an `L2Transaction` the builders read (`raw()` fields plus
its witness hash). -/
structure L2Transaction where
  fromId : Nat
  toId : Nat
  args : Nat
deriving DecidableEq

/-- Modelled from the spec: `tx.witness_hash()`. -/
def L2Transaction.witnessHash (tx : L2Transaction) : H256 :=
  hashTag 8 (Nat.pair tx.fromId (Nat.pair tx.toId tx.args))

/-- The fields of a `WithdrawalRequest` the builders read. -/
structure WithdrawalRequest where
  accountScriptHash : H256
  args : Nat
deriving DecidableEq

/-- Modelled from the spec: `withdrawal.witness_hash()`. -/
def WithdrawalRequest.witnessHash (w : WithdrawalRequest) : H256 :=
  hashTag 9 (Nat.pair w.accountScriptHash w.args)

/-- An `L2Block`: raw header plus ordered transactions and withdrawals. -/
structure L2Block where
  raw : RawL2Block
  transactions : List L2Transaction
  withdrawals : List WithdrawalRequest
deriving DecidableEq

/-- An account script. -/
structure Script where
  code : Nat
deriving DecidableEq

/-- Modelled from the spec (§4.4): the account state materialized in the store
at one checkpoint: the account-SMT leaves and the account count. -/
structure AccountRecord where
  kv : List (H256 × H256)
  accountCount : Nat
deriving DecidableEq

/-- Modelled from the spec (§3, §5; `gw_store` is not under `src/`): the store
transaction (`StoreTransaction`) a build borrows.  `staging` holds the
account-SMT writes staged by the open transaction; `rollback` discards it.
All other fields are the persistent stores the core reads. -/
structure DbState where
  /-- block store keyed by block hash (`get_block`). -/
  blocks : List (H256 × L2Block)
  /-- `get_block_hash_by_number`. -/
  blockHashes : List (Nat × H256)
  /-- per-checkpoint account state (`StateDBTransaction::from_checkpoint`). -/
  states : List (CheckPoint × AccountRecord)
  /-- script store (`CodeStore::get_script`). -/
  scripts : List (H256 × Script)
  /-- canonical block SMT (`db.block_smt()`). -/
  blockSmt : SMT
  /-- reverted-block SMT (`db.reverted_block_smt()`). -/
  revertedBlockSmt : SMT
  /-- staged account-SMT writes of the open transaction. -/
  staging : List (H256 × H256)
deriving DecidableEq

/-- `db.rollback()`: discard every staged mutation. -/
def DbState.rollback (db : DbState) : DbState := { db with staging := [] }

/-- Apply a list of staged writes on top of a leaf list (later writes win). -/
def applyWritesKv (kv : List (H256 × H256)) (ws : List (H256 × H256)) :
    List (H256 × H256) :=
  ws.foldl (fun acc p => kvUpsert acc p.1 p.2) kv

/-- Modelled from the spec (§4.4, §4.6; `gw_store::state_db::StateTree` is not
under `src/`): a state view over one checkpoint.  `tracker` is `none` until
`tracker_mut().enable()`; once enabled it records every key read or written,
in first-touch order and without duplicates (the source stores them in a
`HashSet`; the enumeration order of that set is a parameter of the builders). -/
structure StateTree where
  kv : List (H256 × H256)
  accountCount : Nat
  tracker : Option (List H256)
deriving DecidableEq

/-- Add a key to a touched-key list if absent. -/
def insertKey (ks : List H256) (k : H256) : List H256 :=
  if ks.contains k then ks else ks ++ [k]

/-- Record a key in the tracker (when enabled). -/
def StateTree.touch (t : StateTree) (k : H256) : StateTree :=
  match t.tracker with
  | none => t
  | some ks => { t with tracker := some (insertKey ks k) }

/-- `state.get_raw(key)`: read a leaf and record the key in the tracker. -/
def StateTree.getRaw (t : StateTree) (k : H256) : H256 × StateTree :=
  (kvGet t.kv k, t.touch k)

/-- `state.update_raw(key, value)`: write a leaf, record the key, and stage the
write into the store transaction. -/
def StateTree.updateRaw (t : StateTree) (db : DbState) (k v : H256) :
    StateTree × DbState :=
  let t' := t.touch k
  ({ t' with kv := kvUpsert t'.kv k v },
   { db with staging := db.staging ++ [(k, v)] })

/-- Open the account state tree of a checkpoint through the store transaction
(staged writes are visible through the transaction). -/
def openTree (db : DbState) (rec : AccountRecord) : StateTree :=
  { kv := applyWritesKv rec.kv db.staging, accountCount := rec.accountCount,
    tracker := none }

/-- `tree.calculate_state_checkpoint()`: checkpoint of the view's current root
and account count. -/
def treeCheckpoint (t : StateTree) : H256 :=
  calculate_state_checkpoint (SMT.root ⟨t.kv⟩) t.accountCount

/-- Outcome of a build: a returned `anyhow` error (`err`), or a Rust panic
(`panicked`, raised by `assert_eq!` and debug-build arithmetic overflow). -/
inductive BuildErr where
  | err (msg : String)
  | panicked (msg : String)
deriving DecidableEq

/-- The prev-tx checkpoint selection of `build_tx_kv_witness`
(`challenge.rs:309-331`): the local `CheckPoint` the state view is opened at,
and the on-chain prev-tx checkpoint taken from the block. -/
structure PrevCpSel where
  localCp : CheckPoint
  blockPrevCp : H256
deriving DecidableEq

/-- `challenge.rs:309-331`: `match tx_index.checked_sub(1)`; for the first
transaction use `CheckPoint(number, PrevTxs)` and
`submit_transactions.prev_state_checkpoint`, otherwise
`CheckPoint(number, Tx(i-1))` and
`state_checkpoint_list[withdrawal_count + i - 1]`. -/
def selectPrevTxCheckpoint (raw : RawL2Block) (txIndex : Nat) :
    Except BuildErr PrevCpSel :=
  match checkedSub txIndex 1 with
  | some prevTxIndex =>
    match raw.stateCheckpointList.get? (raw.withdrawalCount + prevTxIndex) with
    | none => .error (.err "block prev tx checkpoint not found")
    | some cp => .ok { localCp := ⟨raw.number, .tx prevTxIndex⟩, blockPrevCp := cp }
  | none =>
    .ok { localCp := ⟨raw.number, .prevTxs⟩, blockPrevCp := raw.prevStateCheckpoint }

/-- The on-chain prev-tx checkpoint of a target, as the spec names it. -/
def onChainPrevTxCp (raw : RawL2Block) (txIndex : Nat) : Option H256 :=
  match checkedSub txIndex 1 with
  | some prevTxIndex => raw.stateCheckpointList.get? (raw.withdrawalCount + prevTxIndex)
  | none => some raw.prevStateCheckpoint

theorem selectPrevTxCheckpoint_onchain {raw : RawL2Block} {txIndex : Nat}
    {sel : PrevCpSel} (h : selectPrevTxCheckpoint raw txIndex = .ok sel) :
    onChainPrevTxCp raw txIndex = some sel.blockPrevCp := by
  unfold selectPrevTxCheckpoint at h
  unfold onChainPrevTxCp
  split at h
  · split at h
    · exact absurd h (by simp)
    · rename_i cp hcp
      rw [hcp]
      cases h
      rfl
  · cases h
    rfl

/-- Modelled from the spec (§4.5): the executor's run result — return data,
the keys it read, the writes it intends, and an optional new account count.
The caller applies it via `apply_run_result`. -/
structure RunResult where
  returnData : Nat
  readKeys : List H256
  writes : List (H256 × H256)
  newAccountCount : Option Nat

/-- Modelled from the spec (§4.5): the deterministic single-transaction
interpreter.  It consumes the block info, the raw transaction and a snapshot of
the state view (leaves and account count), and either fails
(`ExecutionFailed(reason)`) or yields a `RunResult`. -/
def Generator : Type :=
  RawL2Block → L2Transaction → List (H256 × H256) → Nat → Except String RunResult

/-- `TxKvState` of `challenge.rs:281-284`. -/
inductive TxKvState where
  | execution (generator : Generator)
  | signature

/-- Whether the build is a full execution build. -/
def TxKvState.isExecution : TxKvState → Bool
  | .execution _ => true
  | .signature => false

/-- Record the executor's read keys in the tracker. -/
def touchAll (t : StateTree) (ks : List H256) : StateTree :=
  ks.foldl StateTree.touch t

/-- `state.apply_run_result(&run_result)`: apply the writes through
`update_raw` (recording and staging each) and the new account count. -/
def applyRunResult (t : StateTree) (db : DbState) (r : RunResult) :
    StateTree × DbState :=
  let td := r.writes.foldl (fun acc p => acc.1.updateRaw acc.2 p.1 p.2) (t, db)
  match r.newAccountCount with
  | none => td
  | some c => ({ td.1 with accountCount := c }, td.2)

/-- `challenge.rs:362-388`: the execution stage of `build_tx_kv_witness`.
For a signature build nothing runs; for an execution build the parent block
hash is resolved, the executor runs against the view, the return-data hash is
computed and the run result is applied.  Errors propagate before anything is
staged. -/
def runExecution (db : DbState) (raw : RawL2Block) (rawTx : L2Transaction)
    (mode : TxKvState) (t : StateTree) :
    Except BuildErr (StateTree × DbState × Option H256) :=
  match mode with
  | .signature => .ok (t, db, none)
  | .execution gen =>
    match assocFind db.blockHashes raw.number with
    | none => .error (.err "parent block not found")
    | some _parentBlockHash =>
      match gen raw rawTx t.kv t.accountCount with
      | .error e => .error (.err e)
      | .ok run =>
        let rdh := blake2bHash run.returnData
        let t' := touchAll t run.readKeys
        let td := applyRunResult t' db run
        .ok (td.1, td.2, some rdh)

/-- The `TxKvWitness` record of `challenge.rs:286-294`. -/
structure TxKvWitness where
  accountCount : Nat
  scripts : List Script
  senderScript : Script
  receiverScript : Script
  kvState : List (H256 × H256)
  kvStateProof : CompiledMerkleProof
  returnDataHash : Option H256
deriving DecidableEq

/-- `challenge.rs:402-467`: the tail of `build_tx_kv_witness` after the
post-tx checkpoint was checked — touched-key extraction (`ord` is the
enumeration order of the source's `HashSet`, which is unspecified), post-state
read, rollback, prev-state re-read, proof compilation and self-verification.
The two proof self-checks are `assert_eq!`, hence panics on mismatch. -/
def build_tx_kv_finish (ord : List H256 → List H256) (db : DbState)
    (sel : PrevCpSel) (rec : AccountRecord) (prevCount : Nat) (t : StateTree)
    (senderScript receiverScript : Script) (rdh : Option H256)
    (blockPostCp : H256) (isExec : Bool) :
    Except BuildErr TxKvWitness × DbState :=
  match t.tracker with
  | none => (.error (.err "no key touched"), db)
  | some touched =>
    let touchedKeys := ord touched
    let postCount := t.accountCount
    let postKv := touchedKeys.map fun k => (k, kvGet t.kv k)
    let db' := db.rollback
    let t' := openTree db' rec
    let prevKv := touchedKeys.map fun k => (k, kvGet t'.kv k)
    let smt : SMT := ⟨t'.kv⟩
    let kvStateProof := (smt.merkleProof touchedKeys).compile prevKv
    if calculate_state_checkpoint (kvStateProof.computeRoot prevKv) prevCount
        = sel.blockPrevCp then
      if isExec = true →
          calculate_state_checkpoint (kvStateProof.computeRoot postKv) postCount
            = blockPostCp then
        (.ok { accountCount := prevCount,
               scripts := [senderScript, receiverScript],
               senderScript := senderScript, receiverScript := receiverScript,
               kvState := prevKv, kvStateProof := kvStateProof,
               returnDataHash := rdh }, db')
      else (.error (.panicked "post proof checkpoint mismatch"), db')
    else (.error (.panicked "prev proof checkpoint mismatch"), db')

/-- `challenge.rs:296-468` (`build_tx_kv_witness`): select the prev-tx
checkpoint, open a read-only state view there, check the prev-tx state
checkpoint (an `assert_eq!`), enable the touched-key tracker, resolve sender
and receiver scripts, read the sender nonce, run the execution stage, fetch
and (for execution builds) check the post-tx checkpoint from the block, then
finish with rollback, proof compilation and self-verification. -/
def build_tx_kv_witness (ord : List H256 → List H256) (db : DbState)
    (block : L2Block) (rawTx : L2Transaction) (txIndex : Nat)
    (mode : TxKvState) : Except BuildErr TxKvWitness × DbState :=
  let raw := block.raw
  match selectPrevTxCheckpoint raw txIndex with
  | .error e => (.error e, db)
  | .ok sel =>
    match assocFind db.states sel.localCp with
    | none => (.error (.err "state checkpoint not found"), db)
    | some rec =>
      let tree0 := openTree db rec
      let prevCount := tree0.accountCount
      if treeCheckpoint tree0 = sel.blockPrevCp then
        let tree1 : StateTree := { tree0 with tracker := some [] }
        let st := tree1.getRaw (scriptHashKey rawTx.fromId)
        match assocFind db.scripts st.1 with
        | none => (.error (.err "sender script not found"), db)
        | some senderScript =>
          let rt := st.2.getRaw (scriptHashKey rawTx.toId)
          match assocFind db.scripts rt.1 with
          | none => (.error (.err "receiver script not found"), db)
          | some receiverScript =>
            let nt := rt.2.getRaw (nonceKey rawTx.fromId)
            match runExecution db raw rawTx mode nt.2 with
            | .error e => (.error e, db)
            | .ok tdr =>
              match raw.stateCheckpointList.get? (raw.withdrawalCount + txIndex) with
              | none => (.error (.err "block tx checkpoint not found"), tdr.2.1)
              | some blockPostCp =>
                if mode.isExecution = true → treeCheckpoint tdr.1 = blockPostCp then
                  build_tx_kv_finish ord tdr.2.1 sel rec prevCount tdr.1
                    senderScript receiverScript tdr.2.2 blockPostCp mode.isExecution
                else (.error (.panicked "post state checkpoint mismatch"), tdr.2.1)
      else (.error (.panicked "prev state checkpoint mismatch"), db)

/-- `VerifyTransactionContext` (molecule schema, §6 field set). -/
structure VerifyTransactionContext where
  accountCount : Nat
  kvState : List (H256 × H256)
  scripts : List Script
  returnDataHash : H256
deriving DecidableEq

/-- `VerifyTransactionWitness` (molecule schema, §6 field set). -/
structure VerifyTransactionWitness where
  l2tx : L2Transaction
  rawL2block : RawL2Block
  txProof : CompiledMerkleProof
  kvStateProof : CompiledMerkleProof
  context : VerifyTransactionContext
deriving DecidableEq

/-- `VerifyTransactionSignatureContext` (as the execution context minus the
return-data hash). -/
structure VerifyTransactionSignatureContext where
  accountCount : Nat
  kvState : List (H256 × H256)
  scripts : List Script
deriving DecidableEq

/-- `VerifyTransactionSignatureWitness` (molecule schema, §6 field set). -/
structure VerifyTransactionSignatureWitness where
  rawL2block : RawL2Block
  l2tx : L2Transaction
  txProof : CompiledMerkleProof
  kvStateProof : CompiledMerkleProof
  context : VerifyTransactionSignatureContext
deriving DecidableEq

/-- `VerifyWithdrawalWitness` (molecule schema, §6 field set). -/
structure VerifyWithdrawalWitness where
  rawL2block : RawL2Block
  withdrawalRequest : WithdrawalRequest
  withdrawalProof : CompiledMerkleProof
deriving DecidableEq

/-- The tagged witness sum of `challenge.rs:27-32`. -/
inductive VerifyWitness where
  | txExecution (w : VerifyTransactionWitness)
  | txSignature (w : VerifyTransactionSignatureWitness)
  | withdrawal (w : VerifyWithdrawalWitness)
deriving DecidableEq

/-- `VerifyContext` of `challenge.rs:34-39`. -/
structure VerifyContext where
  senderScript : Script
  receiverScript : Option Script
  verifyWitness : VerifyWitness
deriving DecidableEq

/-- `challenge.rs:261-279` (`build_tx_proof`): build the transaction-witness
SMT (`H256::from_u32(i) ↦ tx_i.witness_hash()`, with `from_u32 i` modelled as
`i`), resolve the target transaction, and compile a one-leaf proof over the
target index. -/
def build_tx_proof (block : L2Block) (txIndex : Nat) :
    Except BuildErr (L2Transaction × CompiledMerkleProof) :=
  let tree := block.transactions.enum.foldl
    (fun (s : SMT) p => s.update p.1 p.2.witnessHash) ⟨[]⟩
  match block.transactions.get? txIndex with
  | none => .error (.err "tx not found in block")
  | some tx =>
    let leaves := [(txIndex, tx.witnessHash)]
    .ok (tx, (tree.merkleProof [txIndex]).compile leaves)

/-- `challenge.rs:216-259` (`build_verify_transaction_witness`): load the
block, build the tx proof, build the kv witness in execution mode, take the
return-data hash (an `expect`, i.e. a panic when absent) and assemble the
`TxExecution` verify context. -/
def build_verify_transaction_witness (gen : Generator)
    (ord : List H256 → List H256) (db : DbState) (blockHash : H256)
    (txIndex : Nat) : Except BuildErr VerifyContext × DbState :=
  match assocFind db.blocks blockHash with
  | none => (.error (.err "block not found"), db)
  | some block =>
    match build_tx_proof block txIndex with
    | .error e => (.error e, db)
    | .ok (tx, txProof) =>
      match build_tx_kv_witness ord db block tx txIndex (.execution gen) with
      | (.error e, db') => (.error e, db')
      | (.ok kw, db') =>
        match kw.returnDataHash with
        | none => (.error (.panicked "execution return data hash not found"), db')
        | some rdh =>
          (.ok { senderScript := kw.senderScript,
                 receiverScript := some kw.receiverScript,
                 verifyWitness := .txExecution {
                   l2tx := tx, rawL2block := block.raw, txProof := txProof,
                   kvStateProof := kw.kvStateProof,
                   context := { accountCount := kw.accountCount,
                                kvState := kw.kvState, scripts := kw.scripts,
                                returnDataHash := rdh } } }, db')

/-- `challenge.rs:180-214` (`build_verify_transaction_signature_witness`):
load the block, build the tx proof, build the kv witness in signature mode and
assemble the `TxSignature` verify context. -/
def build_verify_transaction_signature_witness (ord : List H256 → List H256)
    (db : DbState) (blockHash : H256) (txIndex : Nat) :
    Except BuildErr VerifyContext × DbState :=
  match assocFind db.blocks blockHash with
  | none => (.error (.err "block not found"), db)
  | some block =>
    match build_tx_proof block txIndex with
    | .error e => (.error e, db)
    | .ok (tx, txProof) =>
      match build_tx_kv_witness ord db block tx txIndex .signature with
      | (.error e, db') => (.error e, db')
      | (.ok kw, db') =>
        (.ok { senderScript := kw.senderScript,
               receiverScript := some kw.receiverScript,
               verifyWitness := .txSignature {
                 rawL2block := block.raw, l2tx := tx, txProof := txProof,
                 kvStateProof := kw.kvStateProof,
                 context := { accountCount := kw.accountCount,
                              kvState := kw.kvState,
                              scripts := kw.scripts } } }, db')

/-- `u64` subtraction under debug-build semantics: underflow aborts with the
standard overflow panic instead of wrapping. -/
def u64SubDebug (a b : Nat) : Except BuildErr Nat :=
  if b ≤ a then .ok (a - b) else .error (.panicked "attempt to subtract with overflow")

/-- `challenge.rs:122-178` (`build_verify_withdrawal_witness`): load the block,
build the withdrawals SMT (`H256::from_u32(i) ↦ withdrawal_i.witness_hash()`),
resolve the target withdrawal, compile a one-leaf proof, look up the sender
script through a read-only state view at `CheckPoint(number - 1, Block)` (an
unchecked `u64` subtraction), and assemble the `Withdrawal` verify context. -/
def build_verify_withdrawal_witness (db : DbState) (blockHash : H256)
    (withdrawalIndex : Nat) : Except BuildErr VerifyContext :=
  match assocFind db.blocks blockHash with
  | none => .error (.err "block not found")
  | some block =>
    let tree := block.withdrawals.enum.foldl
      (fun (s : SMT) p => s.update p.1 p.2.witnessHash) ⟨[]⟩
    match block.withdrawals.get? withdrawalIndex with
    | none => .error (.err "withdrawal not found in block")
    | some w =>
      let leaves := [(withdrawalIndex, w.witnessHash)]
      let wProof := (tree.merkleProof [withdrawalIndex]).compile leaves
      match u64SubDebug block.raw.number 1 with
      | .error e => .error e
      | .ok prevNumber =>
        match assocFind db.states ⟨prevNumber, .block⟩ with
        | none => .error (.err "state checkpoint not found")
        | some _rec =>
          match assocFind db.scripts w.accountScriptHash with
          | none => .error (.err "sender script not found")
          | some senderScript =>
            .ok { senderScript := senderScript, receiverScript := none,
                  verifyWitness := .withdrawal {
                    rawL2block := block.raw, withdrawalRequest := w,
                    withdrawalProof := wProof } }

/-- `BlockHashEntry` (number, hash). -/
structure BlockHashEntry where
  number : Nat
  hash : H256
deriving DecidableEq

/-- `RevertWitness` of `challenge.rs:63-68`. -/
structure RevertWitness where
  revertedBlocks : List RawL2Block
  blockProof : CompiledMerkleProof
  revertedBlockProof : CompiledMerkleProof
deriving DecidableEq

/-- `RevertContext` of `challenge.rs:70-74`. -/
structure RevertContext where
  postRevertedBlockRoot : H256
  revertWitness : RevertWitness
deriving DecidableEq

/-- `challenge.rs:470-499` (`build_block_proof`): the `BlockHashEntryVec` of
the input blocks and a multi-leaf proof over the canonical block SMT with
keys `block.smt_key` and values `block.hash`. -/
def build_block_proof (db : DbState) (rawBlocks : List RawL2Block) :
    List BlockHashEntry × CompiledMerkleProof :=
  let blockEntries := rawBlocks.map fun rb => BlockHashEntry.mk rb.number rb.hash
  let blockProof :=
    (db.blockSmt.merkleProof (rawBlocks.map RawL2Block.smtKey)).compile
      (rawBlocks.map fun rb => (rb.smtKey, rb.hash))
  (blockEntries, blockProof)

/-- `challenge.rs:77-120` (`build_revert_context`): build the main-chain block
proof, then insert `H(block.hash) ↦ H256::one()` into the reverted-block SMT
for every input block, capture the new root, and compile a multi-leaf proof
over the inserted keys.  The caller owns the rollback of the db. -/
def build_revert_context (db : DbState) (revertedBlocks : List L2Block) :
    RevertContext :=
  let revertedRawBlocks := revertedBlocks.map L2Block.raw
  let bp := build_block_proof db revertedRawBlocks
  let keys := revertedRawBlocks.map RawL2Block.hash
  let smt := keys.foldl (fun (s : SMT) k => s.update k 1) db.revertedBlockSmt
  let root := smt.root
  let leavesRev := revertedRawBlocks.map fun b => (b.hash, (1 : H256))
  let revertedBlockProof := (smt.merkleProof keys).compile leavesRev
  { postRevertedBlockRoot := root,
    revertWitness := { revertedBlocks := revertedRawBlocks,
                       blockProof := bp.2,
                       revertedBlockProof := revertedBlockProof } }

/-- A branch node of the underlying SMT store (opaque to the overlay). -/
structure BranchNode where
  data : Nat
deriving DecidableEq

/-- A leaf node of the underlying SMT store (`LeafNode<H256>`). -/
structure LeafNode where
  key : H256
  value : H256
deriving DecidableEq

/-- The backing store wrapped by an `OverlayStore` (`overlay.rs:63`,
field `store`): reads that miss the overlay fall through to it. -/
structure BackingStore where
  branches : List (H256 × BranchNode)
  leaves : List (H256 × LeafNode)
deriving DecidableEq

/-- `overlay.rs:62-69` (`OverlayStore<S>`): a backing store plus inserted
branches, inserted leaves, deleted-key sets, and the `touched_keys` set
(modelled as a first-touch-ordered duplicate-free list). -/
structure OverlayStore where
  store : BackingStore
  branchesMap : List (H256 × BranchNode)
  leavesMap : List (H256 × LeafNode)
  deletedBranches : List H256
  deletedLeaves : List H256
  touchedKeys : List H256
deriving DecidableEq

/-- `OverlayStore::new` (`overlay.rs:72-81`). -/
def OverlayStore.new (store : BackingStore) : OverlayStore :=
  { store := store, branchesMap := [], leavesMap := [],
    deletedBranches := [], deletedLeaves := [], touchedKeys := [] }

/-- `clear_touched_keys` (`overlay.rs:87-89`). -/
def OverlayStore.clearTouchedKeys (o : OverlayStore) : OverlayStore :=
  { o with touchedKeys := [] }

/-- `get_branch` (`overlay.rs:93-101`): deletion set first, then the overlay,
then the backing store.  Takes `&self`: it cannot mutate the overlay. -/
def OverlayStore.getBranch (o : OverlayStore) (node : H256) : Option BranchNode :=
  if o.deletedBranches.contains node then none
  else
    match assocFind o.branchesMap node with
    | some v => some v
    | none => assocFind o.store.branches node

/-- `get_leaf` (`overlay.rs:102-110`): deletion set first, then the overlay,
then the backing store.  Takes `&self`: it cannot mutate the overlay. -/
def OverlayStore.getLeaf (o : OverlayStore) (leafHash : H256) : Option LeafNode :=
  if o.deletedLeaves.contains leafHash then none
  else
    match assocFind o.leavesMap leafHash with
    | some v => some v
    | none => assocFind o.store.leaves leafHash

/-- `insert_branch` (`overlay.rs:111-115`): does not record a touched key. -/
def OverlayStore.insertBranch (o : OverlayStore) (node : H256) (b : BranchNode) :
    OverlayStore :=
  { o with deletedBranches := o.deletedBranches.filter (fun x => x != node),
           branchesMap := kvAssocUpsert o.branchesMap node b }

/-- `insert_leaf` (`overlay.rs:116-121`): records the leaf key into
`touched_keys`. -/
def OverlayStore.insertLeaf (o : OverlayStore) (leafHash : H256) (l : LeafNode) :
    OverlayStore :=
  { o with deletedLeaves := o.deletedLeaves.filter (fun x => x != leafHash),
           leavesMap := kvAssocUpsert o.leavesMap leafHash l,
           touchedKeys := insertKey o.touchedKeys leafHash }

/-- `remove_branch` (`overlay.rs:122-126`): does not record a touched key. -/
def OverlayStore.removeBranch (o : OverlayStore) (node : H256) : OverlayStore :=
  { o with deletedBranches := insertKey o.deletedBranches node,
           branchesMap := o.branchesMap.filter (fun p => p.1 != node) }

/-- `remove_leaf` (`overlay.rs:127-132`): records the leaf key into
`touched_keys`. -/
def OverlayStore.removeLeaf (o : OverlayStore) (leafHash : H256) : OverlayStore :=
  { o with deletedLeaves := insertKey o.deletedLeaves leafHash,
           leavesMap := o.leavesMap.filter (fun p => p.1 != leafHash),
           touchedKeys := insertKey o.touchedKeys leafHash }

/-- One operation of the `Store<H256>` interface plus `clear_touched_keys`,
used to quantify over arbitrary operation sequences on an overlay. -/
inductive OverlayOp where
  | getBranch (node : H256)
  | getLeaf (leafHash : H256)
  | insertBranch (node : H256) (b : BranchNode)
  | insertLeaf (leafHash : H256) (l : LeafNode)
  | removeBranch (node : H256)
  | removeLeaf (leafHash : H256)
  | clearTouchedKeys
deriving DecidableEq

/-- Execute one operation; the two reads take `&self` and leave the overlay
unchanged. -/
def overlayStep (o : OverlayStore) : OverlayOp → OverlayStore
  | .getBranch _ => o
  | .getLeaf _ => o
  | .insertBranch n b => o.insertBranch n b
  | .insertLeaf h l => o.insertLeaf h l
  | .removeBranch n => o.removeBranch n
  | .removeLeaf h => o.removeLeaf h
  | .clearTouchedKeys => o.clearTouchedKeys

/-- Execute a sequence of operations. -/
def runOverlayOps (o : OverlayStore) (ops : List OverlayOp) : OverlayStore :=
  ops.foldl overlayStep o

/-- The suffix of an operation sequence after its last `clear_touched_keys`
(the whole sequence when no clear occurs). -/
def sinceLastClear (ops : List OverlayOp) : List OverlayOp :=
  ops.foldl
    (fun acc op =>
      match op with
      | .clearTouchedKeys => []
      | _ => acc ++ [op])
    []

/-- The leaf keys passed to `insert_leaf` or `remove_leaf` in a sequence. -/
def leafWriteKeys (ops : List OverlayOp) : List H256 :=
  ops.filterMap fun op =>
    match op with
    | .insertLeaf h _ => some h
    | .removeLeaf h => some h
    | _ => none

/-- The keys selected by `build_revert_context` for the reverted-block SMT:
the hash of each input block. -/
def revertKeys (blocks : List L2Block) : List H256 :=
  blocks.map fun b => b.raw.hash

/-- The reverted-block SMT after setting, for each input block, the key
derived from that block's hash to `H256::one()` on top of the current tree. -/
def revertedSmtAfter (db : DbState) (blocks : List L2Block) : SMT :=
  (revertKeys blocks).foldl (fun s k => s.update k 1) db.revertedBlockSmt

/- ------------------------------------------------------------------ -/
/- Theorems                                                            -/
/- ------------------------------------------------------------------ -/

theorem foldl_updateRaw_snd (ws : List (H256 × H256)) (t : StateTree)
    (db : DbState) :
    (ws.foldl (fun acc p => acc.1.updateRaw acc.2 p.1 p.2) (t, db)).2 =
      { db with staging := db.staging ++ ws } := by
  induction ws generalizing t db with
  | nil => simp
  | cons p rest ih =>
    rw [List.foldl_cons, ih]
    simp [StateTree.updateRaw]

theorem applyRunResult_snd (t : StateTree) (db : DbState) (r : RunResult) :
    (applyRunResult t db r).2 = { db with staging := db.staging ++ r.writes } := by
  unfold applyRunResult
  cases r.newAccountCount <;> simp [foldl_updateRaw_snd]

theorem runExecution_ok_rollback {db : DbState} {raw : RawL2Block}
    {rawTx : L2Transaction} {mode : TxKvState} {t : StateTree}
    {tdr : StateTree × DbState × Option H256}
    (h : runExecution db raw rawTx mode t = .ok tdr) :
    tdr.2.1.rollback = db.rollback := by
  cases mode with
  | signature =>
    unfold runExecution at h
    simp only [Except.ok.injEq] at h
    rw [← h]
  | execution gen =>
    unfold runExecution at h
    dsimp only at h
    split at h
    · simp at h
    · split at h
      · simp at h
      · simp only [Except.ok.injEq] at h
        rw [← h]
        rw [show ((applyRunResult (touchAll t _) db _).1,
            (applyRunResult (touchAll t _) db _).2, _).2.1
          = (applyRunResult (touchAll t _) db _).2 from rfl]
        rw [applyRunResult_snd]
        rfl

theorem build_tx_kv_finish_ok {ord : List H256 → List H256} {db : DbState}
    {sel : PrevCpSel} {rec : AccountRecord} {prevCount : Nat} {t : StateTree}
    {sS rS : Script} {rdh : Option H256} {pcp : H256} {ex : Bool}
    {w : TxKvWitness} {db2 : DbState}
    (h : build_tx_kv_finish ord db sel rec prevCount t sS rS rdh pcp ex
      = (.ok w, db2)) :
    db2 = db.rollback
    ∧ w.accountCount = prevCount
    ∧ w.senderScript = sS ∧ w.receiverScript = rS
    ∧ w.returnDataHash = rdh
    ∧ calculate_state_checkpoint (w.kvStateProof.computeRoot w.kvState)
        w.accountCount = sel.blockPrevCp
    ∧ w.kvState.map Prod.fst = w.kvStateProof.keys
    ∧ w.kvStateProof.compiledLeaves = w.kvState := by
  unfold build_tx_kv_finish at h
  split at h
  · simp at h
  · rename_i touched
    dsimp only at h
    split at h
    · rename_i hprev
      split at h
      · simp only [Prod.mk.injEq, Except.ok.injEq] at h
        obtain ⟨hw, hdb⟩ := h
        subst hw
        subst hdb
        refine ⟨rfl, rfl, rfl, rfl, rfl, hprev, ?_, rfl⟩
        simp [MerkleProofRaw.compile, SMT.merkleProof, List.map_map,
          Function.comp_def]
      · simp at h
    · simp at h

theorem build_tx_kv_witness_ok {ord : List H256 → List H256} {db : DbState}
    {block : L2Block} {rawTx : L2Transaction} {txIndex : Nat} {mode : TxKvState}
    {w : TxKvWitness} {db2 : DbState}
    (h : build_tx_kv_witness ord db block rawTx txIndex mode = (.ok w, db2)) :
    ∃ sel, selectPrevTxCheckpoint block.raw txIndex = .ok sel
      ∧ db2 = db.rollback
      ∧ calculate_state_checkpoint (w.kvStateProof.computeRoot w.kvState)
          w.accountCount = sel.blockPrevCp
      ∧ w.kvState.map Prod.fst = w.kvStateProof.keys
      ∧ w.kvStateProof.compiledLeaves = w.kvState := by
  unfold build_tx_kv_witness at h
  dsimp only at h
  split at h
  · simp at h
  · rename_i sel hsel
    split at h
    · simp at h
    · rename_i rec hrec
      split at h
      · split at h
        · simp at h
        · split at h
          · simp at h
          · split at h
            · simp at h
            · rename_i tdr heq
              split at h
              · simp at h
              · split at h
                · obtain ⟨hdb, hrest⟩ := build_tx_kv_finish_ok h
                  refine ⟨sel, hsel, ?_, hrest.2.2.2.2.1, hrest.2.2.2.2.2.1,
                    hrest.2.2.2.2.2.2⟩
                  rw [hdb]
                  exact runExecution_ok_rollback heq
                · simp at h
      · simp at h

/-- Claim C2: prev-tx checkpoint selection.  For `target_index = 0` the build
opens the state view at `CheckPoint(number, PrevTxs)` and takes the on-chain
prev-tx checkpoint from `submit_transactions.prev_state_checkpoint`; for
`target_index = i + 1` it opens `CheckPoint(number, Tx(i))` and takes the
checkpoint from `state_checkpoint_list[withdrawal_count + i]` (an error when
that entry is missing).  `build_tx_kv_witness` — shared by the TxExecution and
TxSignature builds — consumes exactly this selection. -/
theorem c2_prev_tx_checkpoint_selection (raw : RawL2Block) (i : Nat)
    (ord : List H256 → List H256) (db : DbState) (block : L2Block)
    (rawTx : L2Transaction) (txIndex : Nat) (mode : TxKvState)
    (sel : PrevCpSel) :
    selectPrevTxCheckpoint raw 0 =
      .ok { localCp := ⟨raw.number, .prevTxs⟩,
            blockPrevCp := raw.prevStateCheckpoint }
    ∧ selectPrevTxCheckpoint raw (i + 1) =
      (match raw.stateCheckpointList.get? (raw.withdrawalCount + i) with
       | none => .error (.err "block prev tx checkpoint not found")
       | some cp => .ok { localCp := ⟨raw.number, .tx i⟩, blockPrevCp := cp })
    ∧ (selectPrevTxCheckpoint block.raw txIndex = .ok sel →
       assocFind db.states sel.localCp = none →
       build_tx_kv_witness ord db block rawTx txIndex mode
         = (.error (.err "state checkpoint not found"), db)) := by
  refine ⟨rfl, ?_, ?_⟩
  · unfold selectPrevTxCheckpoint checkedSub
    simp
  · intro hsel hnone
    unfold build_tx_kv_witness
    dsimp only
    rw [hsel]
    dsimp only
    rw [hnone]

/-- Claim C7: revert-context construction.  `build_revert_context` returns the
input blocks' raw forms in order, `post_reverted_block_root` equal to the root
of the reverted-block SMT after setting each input block's hash-derived key to
`H256::one()` on top of the current tree, a `reverted_block_proof` compiled
over exactly those `(key, one)` leaves, and a block proof over the canonical
block SMT with `(smt_key, hash)` leaves. -/
theorem c7_revert_context (db : DbState) (blocks : List L2Block) :
    build_revert_context db blocks =
      { postRevertedBlockRoot := (revertedSmtAfter db blocks).root,
        revertWitness := {
          revertedBlocks := blocks.map L2Block.raw,
          blockProof :=
            (db.blockSmt.merkleProof
                (blocks.map fun b => b.raw.smtKey)).compile
              (blocks.map fun b => (b.raw.smtKey, b.raw.hash)),
          revertedBlockProof :=
            ((revertedSmtAfter db blocks).merkleProof (revertKeys blocks)).compile
              ((revertKeys blocks).map fun k => (k, 1)) } } := by
  unfold build_revert_context build_block_proof revertedSmtAfter revertKeys
  simp only [List.map_map]
  rfl

theorem runOverlayOps_append (o : OverlayStore) (l : List OverlayOp)
    (op : OverlayOp) :
    runOverlayOps o (l ++ [op]) = overlayStep (runOverlayOps o l) op := by
  simp [runOverlayOps, List.foldl_append]

theorem sinceLastClear_append (l : List OverlayOp) (op : OverlayOp) :
    sinceLastClear (l ++ [op]) =
      match op with
      | .clearTouchedKeys => []
      | _ => sinceLastClear l ++ [op] := by
  unfold sinceLastClear
  rw [List.foldl_append]
  rfl

theorem mem_insertKey {ks : List H256} {k x : H256} :
    x ∈ insertKey ks k ↔ x ∈ ks ∨ x = k := by
  unfold insertKey
  split
  · rename_i hc
    rw [List.contains, List.elem_iff] at hc
    constructor
    · exact Or.inl
    · rintro (h | rfl)
      · exact h
      · exact hc
  · simp

/-- Claim C8: touched-key recording in the overlay.  After any operation
sequence on a fresh overlay, `touched_keys` holds exactly the leaf keys passed
to `insert_leaf` or `remove_leaf` since construction or since the last
`clear_touched_keys`; moreover the reads `get_branch` and `get_leaf` never
change the overlay, hence never add touched keys. -/
theorem c8_overlay_touched_keys (b : BackingStore) (ops : List OverlayOp)
    (k n : H256) :
    (k ∈ (runOverlayOps (OverlayStore.new b) ops).touchedKeys ↔
      k ∈ leafWriteKeys (sinceLastClear ops))
    ∧ runOverlayOps (OverlayStore.new b) (ops ++ [.getBranch n]) =
        runOverlayOps (OverlayStore.new b) ops
    ∧ runOverlayOps (OverlayStore.new b) (ops ++ [.getLeaf n]) =
        runOverlayOps (OverlayStore.new b) ops := by
  refine ⟨?_, by rw [runOverlayOps_append]; rfl, by rw [runOverlayOps_append]; rfl⟩
  induction ops using List.reverseRecOn with
  | nil => simp [runOverlayOps, sinceLastClear, leafWriteKeys, OverlayStore.new]
  | append_singleton l op ih =>
    rw [runOverlayOps_append, sinceLastClear_append]
    cases op <;>
      simp [overlayStep, OverlayStore.insertLeaf, OverlayStore.removeLeaf,
        OverlayStore.insertBranch, OverlayStore.removeBranch,
        OverlayStore.clearTouchedKeys, leafWriteKeys, List.filterMap_append,
        mem_insertKey, ih]

/-- Claim C1: proof soundness of the emitted transaction witness.  Whenever
`build_verify_transaction_witness` returns successfully with a `TxExecution`
witness `w`, recomputing `w.kv_state_proof.compute_root` over `w.kv_state`
yields a root whose `calculate_state_checkpoint` with
`w.context.account_count` equals the block's on-chain prev-tx checkpoint. -/
theorem c1_proof_soundness {gen : Generator} {ord : List H256 → List H256}
    {db : DbState} {blockHash : H256} {txIndex : Nat} {ctx : VerifyContext}
    {db2 : DbState} (block : L2Block)
    (hb : assocFind db.blocks blockHash = some block)
    (h : build_verify_transaction_witness gen ord db blockHash txIndex
      = (.ok ctx, db2))
    (w : VerifyTransactionWitness) (hw : ctx.verifyWitness = .txExecution w) :
    onChainPrevTxCp block.raw txIndex
      = some (calculate_state_checkpoint
          (w.kvStateProof.computeRoot w.context.kvState)
          w.context.accountCount) := by
  unfold build_verify_transaction_witness at h
  rw [hb] at h
  dsimp only at h
  split at h
  · simp at h
  · rename_i tx txProof hproof
    split at h
    · simp at h
    · rename_i kw db' hkv
      split at h
      · simp at h
      · rename_i rdh hrdh
        simp only [Prod.mk.injEq, Except.ok.injEq] at h
        obtain ⟨hctx, -⟩ := h
        subst hctx
        simp only [VerifyWitness.txExecution.injEq] at hw
        subst hw
        obtain ⟨sel, hsel, -, hcalc, -, -⟩ := build_tx_kv_witness_ok hkv
        rw [selectPrevTxCheckpoint_onchain hsel]
        exact congrArg some hcalc.symm

/-- Claim C3 (amended): on a prev-tx checkpoint mismatch the TxExecution build
terminates by the `assert_eq!` panic — it does not return an `Inconsistent`
error value — no witness is produced, and the store transaction is returned as
it was (nothing had been staged; the explicit `db.rollback()` call later in
the build is never reached on this path). -/
theorem c3_checkpoint_mismatch_panics {gen : Generator}
    {ord : List H256 → List H256} {db : DbState} {blockHash : H256}
    {txIndex : Nat} {block : L2Block} {tx : L2Transaction}
    {txProof : CompiledMerkleProof} {sel : PrevCpSel} {rec : AccountRecord}
    (hb : assocFind db.blocks blockHash = some block)
    (hp : build_tx_proof block txIndex = .ok (tx, txProof))
    (hsel : selectPrevTxCheckpoint block.raw txIndex = .ok sel)
    (hrec : assocFind db.states sel.localCp = some rec)
    (hne : treeCheckpoint (openTree db rec) ≠ sel.blockPrevCp) :
    build_verify_transaction_witness gen ord db blockHash txIndex
      = (.error (.panicked "prev state checkpoint mismatch"), db) := by
  unfold build_verify_transaction_witness build_tx_kv_witness
  rw [hb]
  dsimp only
  rw [hp]
  dsimp only
  rw [hsel]
  dsimp only
  rw [hrec]
  dsimp only
  rw [if_neg hne]

/-- Claim C4 (amended): the explicit `db.rollback()` is only guaranteed on the
success path — whenever a TxExecution build returns a witness, the returned
store transaction equals the input transaction with its staging discarded
(hence a build opened on a fresh transaction leaves the persistent store
unchanged).  Error exits taken before the rollback call return without rolling
back (see the counterexample for a failing error path). -/
theorem c4_rollback_on_success {gen : Generator} {ord : List H256 → List H256}
    {db : DbState} {blockHash : H256} {txIndex : Nat} {ctx : VerifyContext}
    {db2 : DbState}
    (h : build_verify_transaction_witness gen ord db blockHash txIndex
      = (.ok ctx, db2)) :
    db2 = db.rollback ∧ (db.staging = [] → db2 = db) := by
  have hroll : db2 = db.rollback := by
    unfold build_verify_transaction_witness at h
    split at h
    · simp at h
    · split at h
      · simp at h
      · split at h
        · simp at h
        · rename_i kw db' hkv
          split at h
          · simp at h
          · simp only [Prod.mk.injEq, Except.ok.injEq] at h
            obtain ⟨-, hdb⟩ := h
            obtain ⟨-, -, hdb', -⟩ := build_tx_kv_witness_ok hkv
            rw [← hdb, hdb']
  refine ⟨hroll, fun hstag => ?_⟩
  rw [hroll]
  unfold DbState.rollback
  rw [← hstag]

/-- Claim C6 (amended): a successful kv-witness build emits the touched keys
in the enumeration order of the source's `HashSet` — they are not sorted —
so the emitted `kv_state` key list coincides with the compiled proof's key
list, and two builds agree only when that enumeration order agrees.  (The
counterexample shows the keys are not sorted lexicographically and that two
enumeration orders give different bytes.) -/
theorem c6_enumeration_order {ord : List H256 → List H256} {db : DbState}
    {block : L2Block} {rawTx : L2Transaction} {txIndex : Nat}
    {mode : TxKvState} {w : TxKvWitness} {db2 : DbState}
    (h : build_tx_kv_witness ord db block rawTx txIndex mode = (.ok w, db2)) :
    w.kvState.map Prod.fst = w.kvStateProof.keys
    ∧ w.kvStateProof.compiledLeaves = w.kvState := by
  obtain ⟨sel, -, -, -, hkeys, hleaves⟩ := build_tx_kv_witness_ok h
  exact ⟨hkeys, hleaves⟩

/-- Claim C5: out-of-range target indices fail without a witness.  A
withdrawal build whose `target_index` is at least the withdrawal count fails
with the target-not-found error, and TxExecution/TxSignature builds whose
`target_index` is at least the transaction count — in particular any index
against a block with no transactions — fail with the tx-not-found error. -/
theorem c5_target_index_out_of_bounds {gen : Generator}
    {ord : List H256 → List H256} {db : DbState} {blockHash : H256}
    {idx : Nat} {block : L2Block}
    (hb : assocFind db.blocks blockHash = some block) :
    (block.withdrawals.length ≤ idx →
      build_verify_withdrawal_witness db blockHash idx
        = .error (.err "withdrawal not found in block"))
    ∧ (block.transactions.length ≤ idx →
      (build_verify_transaction_witness gen ord db blockHash idx).1
        = .error (.err "tx not found in block")
      ∧ (build_verify_transaction_signature_witness ord db blockHash idx).1
        = .error (.err "tx not found in block")) := by
  constructor
  · intro hlen
    unfold build_verify_withdrawal_witness
    rw [hb]
    dsimp only
    rw [List.get?_eq_none.mpr hlen]
  · intro hlen
    have hproof : build_tx_proof block idx = .error (.err "tx not found in block") := by
      unfold build_tx_proof
      dsimp only
      rw [List.get?_eq_none.mpr hlen]
    constructor
    · unfold build_verify_transaction_witness
      rw [hb]
      dsimp only
      rw [hproof]
    · unfold build_verify_transaction_signature_witness
      rw [hb]
      dsimp only
      rw [hproof]

/-- Claim C9: withdrawal builds are only total for post-genesis blocks.  The
sender-script lookup uses `CheckPoint(block.number - 1, Block)` with an
unchecked `u64` subtraction, so with a valid withdrawal target a block with
number `0` makes the build abort with the debug-build subtraction-overflow
panic instead of returning an error, while for `block.number ≥ 1` that panic
cannot occur. -/
theorem c9_withdrawal_underflow {db : DbState} {blockHash : H256} {wIdx : Nat}
    {block : L2Block} {w : WithdrawalRequest}
    (hb : assocFind db.blocks blockHash = some block)
    (hw : block.withdrawals.get? wIdx = some w) :
    (block.raw.number = 0 →
      build_verify_withdrawal_witness db blockHash wIdx
        = .error (.panicked "attempt to subtract with overflow"))
    ∧ (1 ≤ block.raw.number →
      build_verify_withdrawal_witness db blockHash wIdx
        ≠ .error (.panicked "attempt to subtract with overflow")) := by
  constructor
  · intro h0
    unfold build_verify_withdrawal_witness
    rw [hb]
    dsimp only
    rw [hw]
    dsimp only
    unfold u64SubDebug
    rw [h0]
    rfl
  · intro h1 hcontra
    unfold build_verify_withdrawal_witness at hcontra
    rw [hb] at hcontra
    dsimp only at hcontra
    rw [hw] at hcontra
    dsimp only at hcontra
    unfold u64SubDebug at hcontra
    rw [if_pos h1] at hcontra
    dsimp only at hcontra
    split at hcontra
    · simp at hcontra
    · split at hcontra
      · simp at hcontra
      · simp at hcontra

/-- Claim C10: a TxSignature build requires the post-tx checkpoint to exist.
Even though the signature path never executes the transaction and never
compares state against the post-tx checkpoint, `build_tx_kv_witness` in
signature mode fails with the checkpoint-not-found error whenever
`state_checkpoint_list` has no entry at `withdrawal_count + target_index`
(and the store transaction is returned unchanged). -/
theorem c10_signature_needs_post_checkpoint {ord : List H256 → List H256}
    {db : DbState} {block : L2Block} {rawTx : L2Transaction} {txIndex : Nat}
    {sel : PrevCpSel} {rec : AccountRecord} {sS rS : Script}
    (hsel : selectPrevTxCheckpoint block.raw txIndex = .ok sel)
    (hrec : assocFind db.states sel.localCp = some rec)
    (hck : treeCheckpoint (openTree db rec) = sel.blockPrevCp)
    (hs : assocFind db.scripts
      (kvGet (openTree db rec).kv (scriptHashKey rawTx.fromId)) = some sS)
    (hr : assocFind db.scripts
      (kvGet (openTree db rec).kv (scriptHashKey rawTx.toId)) = some rS)
    (hmissing : block.raw.stateCheckpointList.get?
      (block.raw.withdrawalCount + txIndex) = none) :
    build_tx_kv_witness ord db block rawTx txIndex .signature
      = (.error (.err "block tx checkpoint not found"), db) := by
  unfold build_tx_kv_witness
  dsimp only
  rw [hsel]
  dsimp only
  rw [hrec]
  dsimp only
  rw [if_pos hck]
  dsimp only [StateTree.getRaw, StateTree.touch]
  rw [hs]
  dsimp only
  rw [hr]
  dsimp only [runExecution]
  rw [hmissing]

/- ------------------------------------------------------------------ -/
/- Concrete instances (witnesses and counterexamples)                  -/
/- ------------------------------------------------------------------ -/

/-- Whether a key list is sorted ascending (lexicographic byte order). -/
def listSortedB : List Nat → Bool
  | [] => true
  | a :: rest =>
    match rest with
    | [] => true
    | b :: _ => Nat.ble a b && listSortedB rest

/-- The persisted state read `get_raw(k)` of the account state at a
checkpoint, as observed through the open store transaction (staged writes
included): the quantity claim C4 requires to be restored after a build. -/
def dbGetRaw (db : DbState) (cp : CheckPoint) (k : H256) : Option H256 :=
  (assocFind db.states cp).map fun rec => kvGet (applyWritesKv rec.kv db.staging) k

def dummyScript : Script := ⟨0⟩

def dummyProof : CompiledMerkleProof := ⟨[], [], []⟩

def dummyTxWitness : VerifyTransactionWitness :=
  ⟨⟨0, 0, 0⟩, ⟨0, 0, 0, 0, [], 0⟩, dummyProof, dummyProof, ⟨0, [], [], 0⟩⟩

def dummyVerifyContext : VerifyContext :=
  ⟨dummyScript, none, .txExecution dummyTxWitness⟩

def dummyKvWitness : TxKvWitness :=
  ⟨0, [], dummyScript, dummyScript, [], dummyProof, none⟩

/-- Fixture A: a consistent store and block for a succeeding execution build
(sender account 1, receiver account 2, one transaction, no withdrawals). -/
def exRecA : AccountRecord :=
  ⟨[(scriptHashKey 1, 100), (scriptHashKey 2, 200), (nonceKey 1, 5)], 4⟩

def exPrevCpA : H256 := calculate_state_checkpoint (SMT.root ⟨exRecA.kv⟩) 4

/-- Fixture A executor: writes the sender nonce leaf to 6. -/
def exGenA : Generator := fun _ _ _ _ => .ok ⟨7, [], [(nonceKey 1, 6)], none⟩

def exPostKvA : List (H256 × H256) := kvUpsert exRecA.kv (nonceKey 1) 6

def exPostCpA : H256 := calculate_state_checkpoint (SMT.root ⟨exPostKvA⟩) 4

def exTxA : L2Transaction := ⟨1, 2, 0⟩

def exBlockA : L2Block := ⟨⟨1, 0, 0, 0, [exPostCpA], exPrevCpA⟩, [exTxA], []⟩

def exScripts : List (H256 × Script) := [(100, ⟨10⟩), (200, ⟨20⟩)]

def exDbA : DbState :=
  ⟨[(555, exBlockA)], [(1, 999)], [(⟨1, .prevTxs⟩, exRecA)], exScripts,
    ⟨[]⟩, ⟨[]⟩, []⟩

def exResultA : Except BuildErr VerifyContext × DbState :=
  build_verify_transaction_witness exGenA id exDbA 555 0

def exCtxA : VerifyContext :=
  match exResultA.1 with
  | .ok c => c
  | .error _ => dummyVerifyContext

def exWitnessA : VerifyTransactionWitness :=
  match exCtxA.verifyWitness with
  | .txExecution w => w
  | _ => dummyTxWitness

theorem c1_witness :
    assocFind exDbA.blocks 555 = some exBlockA
    ∧ onChainPrevTxCp exBlockA.raw 0
      = some (calculate_state_checkpoint
          (exWitnessA.kvStateProof.computeRoot exWitnessA.context.kvState)
          exWitnessA.context.accountCount) :=
  ⟨rfl, @c1_proof_soundness exGenA id exDbA 555 0 exCtxA exResultA.2 exBlockA
    rfl rfl exWitnessA rfl⟩

theorem c4_witness :
    exResultA.2 = exDbA.rollback ∧ (exDbA.staging = [] → exResultA.2 = exDbA) :=
  @c4_rollback_on_success exGenA id exDbA 555 0 exCtxA exResultA.2 rfl

/-- Fixture B: like fixture A but with sender account 5 and receiver account
1, so the touched keys are recorded in a non-sorted order. -/
def exRecB : AccountRecord :=
  ⟨[(scriptHashKey 5, 100), (scriptHashKey 1, 200), (nonceKey 5, 5)], 4⟩

def exPrevCpB : H256 := calculate_state_checkpoint (SMT.root ⟨exRecB.kv⟩) 4

def exGenB : Generator := fun _ _ _ _ => .ok ⟨7, [], [(nonceKey 5, 6)], none⟩

def exPostKvB : List (H256 × H256) := kvUpsert exRecB.kv (nonceKey 5) 6

def exPostCpB : H256 := calculate_state_checkpoint (SMT.root ⟨exPostKvB⟩) 4

def exTxB : L2Transaction := ⟨5, 1, 0⟩

def exBlockB : L2Block := ⟨⟨1, 0, 0, 0, [exPostCpB], exPrevCpB⟩, [exTxB], []⟩

def exDbB : DbState :=
  ⟨[(556, exBlockB)], [(1, 999)], [(⟨1, .prevTxs⟩, exRecB)], exScripts,
    ⟨[]⟩, ⟨[]⟩, []⟩

/-- Fixture B build with one enumeration order of the touched-key set. -/
def exKvResultB : Except BuildErr TxKvWitness × DbState :=
  build_tx_kv_witness id exDbB exBlockB exTxB 0 (.execution exGenB)

/-- Fixture B build with the reversed enumeration order (both orders are
valid enumerations of the same unordered `HashSet`). -/
def exKvResultB2 : Except BuildErr TxKvWitness × DbState :=
  build_tx_kv_witness List.reverse exDbB exBlockB exTxB 0 (.execution exGenB)

def exKwB : TxKvWitness :=
  match exKvResultB.1 with
  | .ok kw => kw
  | .error _ => dummyKvWitness

def exKwB2 : TxKvWitness :=
  match exKvResultB2.1 with
  | .ok kw => kw
  | .error _ => dummyKvWitness

theorem c6_counterexample :
    listSortedB (exKwB.kvState.map Prod.fst) = false
    ∧ listSortedB exKwB.kvStateProof.keys = false
    ∧ exKwB.kvState ≠ exKwB2.kvState := by
  refine ⟨by decide, by decide, by decide⟩

theorem c6_witness :
    exKwB.kvState.map Prod.fst = exKwB.kvStateProof.keys
    ∧ exKwB.kvStateProof.compiledLeaves = exKwB.kvState :=
  @c6_enumeration_order id exDbB exBlockB exTxB 0 (.execution exGenB) exKwB
    exKvResultB.2 rfl

/-- Fixture C: like fixture A but the block's `prev_state_checkpoint`
disagrees with the store. -/
def exBlockC : L2Block := ⟨⟨1, 0, 0, 0, [exPostCpA], exPrevCpA + 1⟩, [exTxA], []⟩

def exDbC : DbState :=
  ⟨[(557, exBlockC)], [(1, 999)], [(⟨1, .prevTxs⟩, exRecA)], exScripts,
    ⟨[]⟩, ⟨[]⟩, []⟩

def exTxProofC : CompiledMerkleProof := ⟨[], [0], [(0, exTxA.witnessHash)]⟩

def selC : PrevCpSel := ⟨⟨1, .prevTxs⟩, exPrevCpA + 1⟩

theorem c3_counterexample :
    (build_verify_transaction_witness exGenA id exDbC 557 0).1
      = .error (.panicked "prev state checkpoint mismatch")
    ∧ ∀ msg, (build_verify_transaction_witness exGenA id exDbC 557 0).1
      ≠ .error (.err msg) := by
  have hb : (build_verify_transaction_witness exGenA id exDbC 557 0).1
      = .error (.panicked "prev state checkpoint mismatch") := rfl
  refine ⟨hb, fun msg h => ?_⟩
  rw [hb] at h
  simp at h

theorem c3_witness :
    treeCheckpoint (openTree exDbC exRecA) ≠ selC.blockPrevCp
    ∧ build_verify_transaction_witness exGenA id exDbC 557 0
      = (.error (.panicked "prev state checkpoint mismatch"), exDbC) :=
  ⟨by decide, @c3_checkpoint_mismatch_panics exGenA id exDbC 557 0 exBlockC
    exTxA exTxProofC selC exRecA rfl rfl rfl rfl (by decide)⟩

/-- Fixture D: like fixture A but the block has an empty
`state_checkpoint_list`, so the post-tx checkpoint entry is missing. -/
def exBlockD : L2Block := ⟨⟨1, 0, 0, 0, [], exPrevCpA⟩, [exTxA], []⟩

def exDbD : DbState :=
  ⟨[(558, exBlockD)], [(1, 999)], [(⟨1, .prevTxs⟩, exRecA)], exScripts,
    ⟨[]⟩, ⟨[]⟩, []⟩

theorem c4_counterexample :
    (build_verify_transaction_witness exGenA id exDbD 558 0).1
      = .error (.err "block tx checkpoint not found")
    ∧ (build_verify_transaction_witness exGenA id exDbD 558 0).2 ≠ exDbD.rollback
    ∧ dbGetRaw (build_verify_transaction_witness exGenA id exDbD 558 0).2
        ⟨1, .prevTxs⟩ (nonceKey 1)
      ≠ dbGetRaw exDbD ⟨1, .prevTxs⟩ (nonceKey 1) :=
  ⟨rfl, by decide, by decide⟩

def selD : PrevCpSel := ⟨⟨1, .prevTxs⟩, exPrevCpA⟩

theorem c10_witness :
    exBlockD.raw.stateCheckpointList.get? (exBlockD.raw.withdrawalCount + 0) = none
    ∧ build_tx_kv_witness id exDbD exBlockD exTxA 0 .signature
      = (.error (.err "block tx checkpoint not found"), exDbD) :=
  ⟨rfl, @c10_signature_needs_post_checkpoint id exDbD exBlockD exTxA 0 selD
    exRecA ⟨10⟩ ⟨20⟩ rfl rfl rfl rfl rfl rfl⟩

/-- Fixture E: a block with no withdrawals and no transactions. -/
def exBlockE : L2Block := ⟨⟨1, 0, 0, 0, [], 0⟩, [], []⟩

def exDbE : DbState := ⟨[(560, exBlockE)], [], [], [], ⟨[]⟩, ⟨[]⟩, []⟩

theorem c5_witness :
    build_verify_withdrawal_witness exDbE 560 0
      = .error (.err "withdrawal not found in block")
    ∧ (build_verify_transaction_witness exGenA id exDbE 560 0).1
      = .error (.err "tx not found in block")
    ∧ (build_verify_transaction_signature_witness id exDbE 560 0).1
      = .error (.err "tx not found in block") := by
  have h := @c5_target_index_out_of_bounds exGenA id exDbE 560 0 exBlockE rfl
  exact ⟨h.1 (by decide), (h.2 (by decide)).1, (h.2 (by decide)).2⟩

/-- Fixture F: a genesis block (number 0) with one withdrawal. -/
def exWF : WithdrawalRequest := ⟨100, 0⟩

def exBlockF : L2Block := ⟨⟨0, 0, 0, 1, [], 0⟩, [], [exWF]⟩

def exDbF : DbState := ⟨[(561, exBlockF)], [], [], exScripts, ⟨[]⟩, ⟨[]⟩, []⟩

theorem c2_witness :
    selectPrevTxCheckpoint exBlockA.raw 0 = .ok ⟨⟨1, .prevTxs⟩, exPrevCpA⟩
    ∧ build_tx_kv_witness id exDbE exBlockA exTxA 0 .signature
      = (.error (.err "state checkpoint not found"), exDbE) := by
  have h := c2_prev_tx_checkpoint_selection exBlockA.raw 0 id exDbE exBlockA
    exTxA 0 .signature ⟨⟨1, .prevTxs⟩, exPrevCpA⟩
  exact ⟨h.1, h.2.2 rfl rfl⟩

theorem c9_witness :
    exBlockF.raw.number = 0
    ∧ build_verify_withdrawal_witness exDbF 561 0
      = .error (.panicked "attempt to subtract with overflow") :=
  ⟨rfl, (@c9_withdrawal_underflow exDbF 561 0 exBlockF exWF rfl rfl).1 rfl⟩

end Godwoken
